import Mathlib

/-!
Shallow embedding of `src/server_guardian.py` (VPS-Traffic-Guardian).

The program is a single control loop (`ServerGuardian.main_loop`) driving
four policies: connection limiting, daily unique-IP circuit breaking,
adaptive throttling, and daily traffic circuit breaking.  We embed the
pure decision logic: machine integers become `Nat`/`Int`; the two float
divisions (`diff * 8 / 2^20 > TRIGGER_SPEED` and
`bytes / 2^30 > MAX_DAILY_TRAFFIC`) are embedded as the equivalent
integer comparisons with the positive denominator cleared (the
thresholds are integers; bridge lemmas `rate_guard_iff` and
`gb_guard_iff` below relate the embedded guards to the literal rational
formulas); side effects (tc invocations, log writes, shutdown, exit)
become an explicit event list, and `sys.exit` terminating the loop becomes
a dedicated result constructor.  Sampler failure (the `try/except` blocks)
is embedded as an `Option` input: `none` is the exception path.
-/

namespace Guardian

/-- Configuration constants from the top of the script.  The script fixes
them; we keep them as a record so theorems can quantify over the
configured trigger duration, punishment duration, and thresholds. -/
structure Config where
  MAX_CONCURRENT_IPS : Nat
  MAX_DAILY_UNIQUE_IPS : Nat
  MAX_SPEED_LIMIT : Int
  THROTTLE_SPEED_LIMIT : Int
  TRIGGER_SPEED : Int
  TRIGGER_DURATION : Nat
  PUNISH_DURATION : Int
  MAX_DAILY_TRAFFIC : Int
deriving DecidableEq

/-- The literal constants of the configuration block (lines 26-41). -/
def defaultConfig : Config :=
  { MAX_CONCURRENT_IPS := 8
    MAX_DAILY_UNIQUE_IPS := 15
    MAX_SPEED_LIMIT := 150
    THROTTLE_SPEED_LIMIT := 60
    TRIGGER_SPEED := 100
    TRIGGER_DURATION := 10
    PUNISH_DURATION := 900
    MAX_DAILY_TRAFFIC := 100 }

/-- Field `self.current_state`, the string "NORMAL" or "THROTTLED". -/
inductive StateTag where
  | NORMAL
  | THROTTLED
deriving DecidableEq

/-- Shutdown reasons distinguished by the two `shutdown_server` call
sites in `main_loop` (lines 160 and 168). -/
inductive Reason where
  | dailyTraffic
  | dailyIps
deriving DecidableEq

/-- Observable side effects of one tick. -/
inductive Event where
  | setTcSpeed (mbit : Int)
  | shutdownLog (reason : Reason)
  | runShellCmd (cmd : String)
  | exitCode (code : Nat)
deriving DecidableEq

/-- The mutable fields of the `ServerGuardian` object, plus the
`last_traffic` local of `main_loop` (it is loop-carried state). -/
structure GuardianState where
  punish_end_time : Int
  high_load_duration : Nat
  current_state : StateTag
  daily_ips : Finset String
  daily_traffic_bytes : Int
  last_check_date : Nat
  last_traffic : Nat
deriving DecidableEq

/-- State created by `__init__` (lines 50-56), with the baseline traffic
sample taken at the top of `main_loop` (line 136). -/
def initialState (today : Nat) (baseline : Nat) : GuardianState :=
  { punish_end_time := 0
    high_load_duration := 0
    current_state := .NORMAL
    daily_ips := ∅
    daily_traffic_bytes := 0
    last_check_date := today
    last_traffic := baseline }

/-- Privilege check of `__init__` (lines 59-61): a non-root effective uid is
a fatal startup error with exit status 1; root yields no exit. -/
def rootCheck (euid : Nat) : Option Nat :=
  if euid ≠ 0 then some 1 else none

/-- Function `get_current_traffic` (lines 88-98): the `try` body reads rx and tx
byte counters and returns their sum; the `except` path (input `none`)
returns 0. -/
def get_current_traffic (readResult : Option (Nat × Nat)) : Nat :=
  match readResult with
  | some (rx, tx) => rx + tx
  | none => 0

/-- Function `get_active_ips` (lines 100-108): the `try` body keeps the non-empty
address strings; the `except` path (input `none`) returns the empty
list. -/
def get_active_ips (cmdResult : Option (List String)) : List String :=
  match cmdResult with
  | some ips => ips.filter (fun ip => ip ≠ "")
  | none => []

/-- Method `check_daily_reset` (lines 110-117): on a date change, clear the IP
set, zero the byte total, and store the new date. -/
def check_daily_reset (s : GuardianState) (today : Nat) : GuardianState :=
  if today ≠ s.last_check_date then
    { s with daily_ips := ∅, daily_traffic_bytes := 0, last_check_date := today }
  else s

/-- Method `shutdown_server` (lines 120-130): one log line with the reason, the
host shutdown command, then `sys.exit(0)`. -/
def shutdown_server (r : Reason) : List Event :=
  [Event.shutdownLog r, Event.runShellCmd "shutdown -h now", Event.exitCode 0]

/-- The throttle-relevant slice of the state (fields read and written by
lines 170-197). -/
structure ThrottleState where
  tag : StateTag
  high_load_duration : Nat
  punish_end_time : Int
deriving DecidableEq

/-- Lines 170-197 of `main_loop`: the dynamic throttling logic for one
tick.  The second argument is the byte delta `diff_traffic` of this
tick; the source tests `current_speed_mbps > TRIGGER_SPEED` where
`current_speed_mbps = diff_traffic * 8 / (1024 * 1024)`, which we embed
with the positive denominator cleared (see `rate_guard_iff`). -/
def throttle_step (cfg : Config) : ThrottleState → Int → Int → ThrottleState × List Event
  | ⟨.THROTTLED, hl, pe⟩, _, now =>
    if pe - now ≤ 0 then
      (⟨.NORMAL, 0, pe⟩, [Event.setTcSpeed cfg.MAX_SPEED_LIMIT])
    else
      (⟨.THROTTLED, hl, pe⟩, [])
  | ⟨.NORMAL, hl, pe⟩, diff_traffic, now =>
    if cfg.TRIGGER_SPEED * (1024 * 1024) < diff_traffic * 8 then
      if cfg.TRIGGER_DURATION ≤ hl + 1 then
        (⟨.THROTTLED, hl + 1, now + cfg.PUNISH_DURATION⟩,
          [Event.setTcSpeed cfg.THROTTLE_SPEED_LIMIT])
      else
        (⟨.NORMAL, hl + 1, pe⟩, [])
    else
      (⟨.NORMAL, 0, pe⟩, [])

/-- The `for ip in active_ips: self.daily_ips.add(ip)` loop
(lines 164-165). -/
def absorb_ips (ips : Finset String) (active : List String) : Finset String :=
  active.foldl (fun acc ip => insert ip acc) ips

/-- Result of one iteration of the `while True` loop: either the loop
continues with a new state, or `shutdown_server` terminated the process.
In the `stop` case the recorded state is the object state at the moment
`sys.exit` ran. -/
inductive TickResult where
  | cont (s : GuardianState) (events : List Event)
  | stop (s : GuardianState) (r : Reason) (events : List Event)
deriving DecidableEq

/-- One iteration of the `while True` body (lines 140-197).  Inputs are
the sampled values for this tick: the calendar date, the cumulative
traffic sample, the active IP list, and `time.time()`. -/
def tick (cfg : Config) (s0 : GuardianState) (today : Nat)
    (current_traffic : Nat) (active_ips : List String) (now : Int) : TickResult :=
  let s1 := check_daily_reset s0 today
  let diff_traffic : Int := (current_traffic : Int) - (s1.last_traffic : Int)
  let s2 := { s1 with
    last_traffic := current_traffic
    daily_traffic_bytes := s1.daily_traffic_bytes + diff_traffic }
  if cfg.MAX_DAILY_TRAFFIC * (1024 * 1024 * 1024) < s2.daily_traffic_bytes then
    .stop s2 .dailyTraffic (shutdown_server .dailyTraffic)
  else
    let s3 := { s2 with daily_ips := absorb_ips s2.daily_ips active_ips }
    if cfg.MAX_DAILY_UNIQUE_IPS < s3.daily_ips.card then
      .stop s3 .dailyIps (shutdown_server .dailyIps)
    else
      let tres := throttle_step cfg
        ⟨s3.current_state, s3.high_load_duration, s3.punish_end_time⟩
        diff_traffic now
      .cont { s3 with
        current_state := tres.1.tag
        high_load_duration := tres.1.high_load_duration
        punish_end_time := tres.1.punish_end_time } tres.2

/-- Projection helpers over a tick result. -/
def stateOf : TickResult → GuardianState
  | .cont s _ => s
  | .stop s _ _ => s

def eventsOf : TickResult → List Event
  | .cont _ e => e
  | .stop _ _ e => e

def isStop : TickResult → Bool
  | .cont _ _ => false
  | .stop _ _ _ => true

/-- Input bundle for one tick. -/
structure TickInput where
  today : Nat
  traffic : Nat
  ips : List String
  now : Int
deriving DecidableEq

/-- Result of running the loop over a finite input prefix. -/
inductive RunResult where
  | ok (s : GuardianState)
  | halted (s : GuardianState) (r : Reason)
deriving DecidableEq

/-- Run the loop body over a list of tick inputs, stopping early when a
circuit breaker fires. -/
def runTicks (cfg : Config) (s : GuardianState) : List TickInput → RunResult
  | [] => .ok s
  | i :: rest =>
    match tick cfg s i.today i.traffic i.ips i.now with
    | .cont s2 _ => runTicks cfg s2 rest
    | .stop s2 r _ => .halted s2 r

/-- Iterate the throttle logic alone over a list of (byte delta, now)
pairs. -/
def runThrottle (cfg : Config) (ts : ThrottleState) : List (Int × Int) → ThrottleState
  | [] => ts
  | p :: rest => runThrottle cfg (throttle_step cfg ts p.1 p.2).1 rest

/-- Trace of throttle states after each tick. -/
def throttleTrace (cfg : Config) (ts : ThrottleState) : List (Int × Int) → List ThrottleState
  | [] => []
  | p :: rest =>
    (throttle_step cfg ts p.1 p.2).1 ::
      throttleTrace cfg (throttle_step cfg ts p.1 p.2).1 rest

/-- Daily total after this tick absorbs its byte delta (the value the
traffic breaker on line 159 tests, divided by 1024^3). -/
def totalAfterAbsorb (s : GuardianState) (today : Nat) (traffic : Nat) : Int :=
  (check_daily_reset s today).daily_traffic_bytes
    + ((traffic : Int) - ((check_daily_reset s today).last_traffic : Int))

/-- Daily IP set after this tick absorbs its address list (the set whose
size the breaker on line 167 tests). -/
def ipsAfterAbsorb (s : GuardianState) (today : Nat) (ips : List String) : Finset String :=
  absorb_ips (check_daily_reset s today).daily_ips ips

/-- Byte deltas of a cumulative-sample sequence against a baseline, as
computed on line 148 each tick. -/
def deltasFrom (t0 : Nat) : List Nat → List Int
  | [] => []
  | t :: rest => ((t : Int) - (t0 : Int)) :: deltasFrom t rest

/-- The embedded rate guard equals the literal source formula
`diff_traffic * 8 / (1024 * 1024) > TRIGGER_SPEED` over exact
arithmetic. -/
lemma rate_guard_iff (T d : Int) :
    T * (1024 * 1024) < d * 8 ↔ (T : ℚ) < (d : ℚ) * 8 / (1024 * 1024) := by
  rw [lt_div_iff₀ (by norm_num : (0 : ℚ) < 1024 * 1024)]
  exact_mod_cast Iff.rfl

/-- The embedded traffic-volume guard equals the literal source formula
`daily_traffic_bytes / (1024 * 1024 * 1024) > MAX_DAILY_TRAFFIC` over
exact arithmetic. -/
lemma gb_guard_iff (M b : Int) :
    M * (1024 * 1024 * 1024) < b ↔ (M : ℚ) < (b : ℚ) / (1024 * 1024 * 1024) := by
  rw [lt_div_iff₀ (by norm_num : (0 : ℚ) < 1024 * 1024 * 1024)]
  exact_mod_cast Iff.rfl

/-! Helper lemmas about the embedded operations. -/

lemma absorb_ips_eq (s : Finset String) (l : List String) :
    absorb_ips s l = s ∪ l.toFinset := by
  induction l generalizing s with
  | nil => simp [absorb_ips]
  | cons a t ih =>
    show absorb_ips (insert a s) t = s ∪ (a :: t).toFinset
    rw [ih]
    simp [Finset.insert_union, Finset.union_insert]

lemma throttle_step_normal_overage_below (cfg : Config) (hl : Nat) (pe d now : Int)
    (hd : cfg.TRIGGER_SPEED * (1024 * 1024) < d * 8)
    (hc : hl + 1 < cfg.TRIGGER_DURATION) :
    throttle_step cfg ⟨.NORMAL, hl, pe⟩ d now = (⟨.NORMAL, hl + 1, pe⟩, []) := by
  simp only [throttle_step]
  rw [if_pos hd, if_neg (by omega)]

lemma throttle_step_normal_trigger (cfg : Config) (hl : Nat) (pe d now : Int)
    (hd : cfg.TRIGGER_SPEED * (1024 * 1024) < d * 8)
    (hc : cfg.TRIGGER_DURATION ≤ hl + 1) :
    throttle_step cfg ⟨.NORMAL, hl, pe⟩ d now =
      (⟨.THROTTLED, hl + 1, now + cfg.PUNISH_DURATION⟩,
        [Event.setTcSpeed cfg.THROTTLE_SPEED_LIMIT]) := by
  simp only [throttle_step]
  rw [if_pos hd, if_pos hc]

lemma throttle_step_normal_calm (cfg : Config) (hl : Nat) (pe d now : Int)
    (hd : ¬ cfg.TRIGGER_SPEED * (1024 * 1024) < d * 8) :
    throttle_step cfg ⟨.NORMAL, hl, pe⟩ d now = (⟨.NORMAL, 0, pe⟩, []) := by
  simp only [throttle_step]
  rw [if_neg hd]

lemma throttle_step_throttled_stay (cfg : Config) (hl : Nat) (pe d now : Int)
    (h : now < pe) :
    throttle_step cfg ⟨.THROTTLED, hl, pe⟩ d now = (⟨.THROTTLED, hl, pe⟩, []) := by
  simp only [throttle_step]
  rw [if_neg (by omega)]

lemma throttle_step_throttled_recover (cfg : Config) (hl : Nat) (pe d now : Int)
    (h : pe ≤ now) :
    throttle_step cfg ⟨.THROTTLED, hl, pe⟩ d now =
      (⟨.NORMAL, 0, pe⟩, [Event.setTcSpeed cfg.MAX_SPEED_LIMIT]) := by
  simp only [throttle_step]
  rw [if_pos (by omega)]

lemma runThrottle_append (cfg : Config) (ts : ThrottleState)
    (xs ys : List (Int × Int)) :
    runThrottle cfg ts (xs ++ ys) = runThrottle cfg (runThrottle cfg ts xs) ys := by
  induction xs generalizing ts with
  | nil => rfl
  | cons p t ih => simp [runThrottle, ih]

lemma throttleTrace_append (cfg : Config) (ts : ThrottleState)
    (xs ys : List (Int × Int)) :
    throttleTrace cfg ts (xs ++ ys) =
      throttleTrace cfg ts xs ++ throttleTrace cfg (runThrottle cfg ts xs) ys := by
  induction xs generalizing ts with
  | nil => rfl
  | cons p t ih => simp [throttleTrace, runThrottle, ih]

/-- Sustained overage below the trigger duration: the counter climbs one
per tick and the machine never leaves NORMAL. -/
lemma runThrottle_sustained_overage (cfg : Config) (pe : Int) :
    ∀ (xs : List (Int × Int)) (c : Nat),
      (∀ p ∈ xs, cfg.TRIGGER_SPEED * (1024 * 1024) < p.1 * 8) →
      c + xs.length < cfg.TRIGGER_DURATION →
      runThrottle cfg ⟨.NORMAL, c, pe⟩ xs = ⟨.NORMAL, c + xs.length, pe⟩ ∧
        ∀ u ∈ throttleTrace cfg ⟨.NORMAL, c, pe⟩ xs, u.tag = .NORMAL := by
  intro xs
  induction xs with
  | nil =>
    intro c _ _
    exact ⟨rfl, by simp [throttleTrace]⟩
  | cons p t ih =>
    intro c hx hlen
    have hp := hx p (List.mem_cons_self p t)
    have hlen2 : c + 1 + t.length < cfg.TRIGGER_DURATION := by
      simp only [List.length_cons] at hlen; omega
    have hstep : throttle_step cfg ⟨.NORMAL, c, pe⟩ p.1 p.2 = (⟨.NORMAL, c + 1, pe⟩, []) :=
      throttle_step_normal_overage_below cfg c pe p.1 p.2 hp (by omega)
    have ht := ih (c + 1) (fun q hq => hx q (List.mem_cons_of_mem p hq)) hlen2
    constructor
    · show runThrottle cfg (throttle_step cfg ⟨.NORMAL, c, pe⟩ p.1 p.2).1 t = _
      rw [hstep, ht.1]
      simp only [List.length_cons]
      congr 1
      omega
    · intro u hu
      simp only [throttleTrace] at hu
      rw [hstep] at hu
      rcases List.mem_cons.mp hu with h | h
      · rw [h]
      · exact ht.2 u h

/-- The accounting and bookkeeping fields written by a continuing tick. -/
lemma tick_cont_fields (cfg : Config) (s s2 : GuardianState) (today : Nat)
    (traffic : Nat) (ips : List String) (now : Int) (ev : List Event)
    (h : tick cfg s today traffic ips now = .cont s2 ev) :
    s2.daily_traffic_bytes =
        (check_daily_reset s today).daily_traffic_bytes
          + ((traffic : Int) - ((check_daily_reset s today).last_traffic : Int)) ∧
      s2.last_traffic = traffic ∧
      s2.last_check_date = (check_daily_reset s today).last_check_date ∧
      s2.daily_ips = absorb_ips (check_daily_reset s today).daily_ips ips := by
  simp only [tick] at h
  split at h
  · exact absurd h (by simp)
  · split at h
    · exact absurd h (by simp)
    · injection h with h1 _
      subst h1
      exact ⟨rfl, rfl, rfl, rfl⟩

lemma check_daily_reset_same (s : GuardianState) (today : Nat)
    (h : today = s.last_check_date) : check_daily_reset s today = s := by
  simp [check_daily_reset, h]

/-- Final state of a finite run, whether or not a breaker fired. -/
def finalStateOf : RunResult → GuardianState
  | .ok s => s
  | .halted s _ => s

/-- Over any run that stays within one calendar day and never trips a
breaker, the daily byte total accumulates every delta, the positive and
the negative alike. -/
lemma runTicks_ok_total (cfg : Config) :
    ∀ (inputs : List TickInput) (s sfin : GuardianState),
      (∀ i ∈ inputs, i.today = s.last_check_date) →
      runTicks cfg s inputs = .ok sfin →
      sfin.daily_traffic_bytes =
          s.daily_traffic_bytes
            + (deltasFrom s.last_traffic (inputs.map TickInput.traffic)).sum ∧
        sfin.last_check_date = s.last_check_date := by
  intro inputs
  induction inputs with
  | nil =>
    intro s sfin _ hrun
    simp only [runTicks] at hrun
    injection hrun with h1
    subst h1
    exact ⟨by simp [deltasFrom], rfl⟩
  | cons i rest ih =>
    intro s sfin hdate hrun
    cases htick : tick cfg s i.today i.traffic i.ips i.now with
    | stop s2 r ev =>
      simp only [runTicks, htick] at hrun
      exact (RunResult.noConfusion hrun)
    | cont s2 ev =>
      simp only [runTicks, htick] at hrun
      obtain ⟨hb, hlt, hdt, _⟩ :=
        tick_cont_fields cfg s s2 i.today i.traffic i.ips i.now ev htick
      have hid : check_daily_reset s i.today = s :=
        check_daily_reset_same s i.today (hdate i (List.mem_cons_self i rest))
      rw [hid] at hb hdt
      have hrest := ih s2 sfin
        (fun j hj => (hdate j (List.mem_cons_of_mem i hj)).trans hdt.symm) hrun
      refine ⟨?_, hrest.2.trans hdt⟩
      rw [hrest.1, hb, hlt]
      simp only [List.map_cons, deltasFrom, List.sum_cons]
      ring

/-- C1 counterexample: the code adds a negative byte delta to the daily
total instead of treating it as zero contribution.  With a baseline
sample of 100 bytes and a next cumulative sample of 0 (counter reset),
the tick on line 152 drives the daily total to -100, while the sum of
the non-negative deltas of that sample sequence is 0. -/
theorem daily_total_negative_delta_subtracted :
    (stateOf (tick defaultConfig (initialState 0 100) 0 0 [] 0)).daily_traffic_bytes
        = -100 ∧
      ((deltasFrom 100 [0]).map (fun d => max d 0)).sum = 0 ∧
      (-100 : Int) ≠ 0 := by decide

/-- C1 (amended): within one calendar day and absent a breaker trip, the
cumulative daily byte total equals the sum of all byte deltas, with
negative deltas subtracted rather than contributing zero. -/
theorem daily_total_sums_all_deltas (cfg : Config) (s sfin : GuardianState)
    (inputs : List TickInput)
    (hdate : ∀ i ∈ inputs, i.today = s.last_check_date)
    (hrun : runTicks cfg s inputs = .ok sfin) :
    sfin.daily_traffic_bytes =
      s.daily_traffic_bytes
        + (deltasFrom s.last_traffic (inputs.map TickInput.traffic)).sum :=
  (runTicks_ok_total cfg inputs s sfin hdate hrun).1

/-- Concrete two-tick run exercising `daily_total_sums_all_deltas` with
one positive and one negative delta. -/
def c1Inputs : List TickInput := [⟨0, 150, [], 0⟩, ⟨0, 30, ["10.0.0.1"], 1⟩]

theorem daily_total_sums_all_deltas_witness :
    (finalStateOf (runTicks defaultConfig (initialState 0 100) c1Inputs)).daily_traffic_bytes
      = (initialState 0 100).daily_traffic_bytes
        + (deltasFrom (initialState 0 100).last_traffic
            (c1Inputs.map TickInput.traffic)).sum :=
  daily_total_sums_all_deltas defaultConfig (initialState 0 100)
    (finalStateOf (runTicks defaultConfig (initialState 0 100) c1Inputs))
    c1Inputs (by decide) (by decide)

/-- While the stored punishment deadline lies in the future, each tick in
THROTTLED leaves the throttle state entirely unchanged, whatever the
rate. -/
lemma runThrottle_punish_window (cfg : Config) (hl : Nat) (pe : Int) :
    ∀ (xs : List (Int × Int)), (∀ p ∈ xs, p.2 < pe) →
      runThrottle cfg ⟨.THROTTLED, hl, pe⟩ xs = ⟨.THROTTLED, hl, pe⟩ ∧
        ∀ u ∈ throttleTrace cfg ⟨.THROTTLED, hl, pe⟩ xs,
          u = ⟨.THROTTLED, hl, pe⟩ := by
  intro xs
  induction xs with
  | nil =>
    intro _
    exact ⟨rfl, by simp [throttleTrace]⟩
  | cons p t ih =>
    intro hx
    have hstep : throttle_step cfg ⟨.THROTTLED, hl, pe⟩ p.1 p.2 =
        (⟨.THROTTLED, hl, pe⟩, []) :=
      throttle_step_throttled_stay cfg hl pe p.1 p.2 (hx p (List.mem_cons_self p t))
    have ht := ih (fun q hq => hx q (List.mem_cons_of_mem p hq))
    constructor
    · show runThrottle cfg (throttle_step cfg ⟨.THROTTLED, hl, pe⟩ p.1 p.2).1 t = _
      rw [hstep]
      exact ht.1
    · intro u hu
      simp only [throttleTrace] at hu
      rw [hstep] at hu
      rcases List.mem_cons.mp hu with h | h
      · exact h
      · exact ht.2 u h

/-- C2: starting in NORMAL with a zero overage counter, a rate sequence
exceeding the trigger threshold for exactly D-1 consecutive ticks and
then dropping to or below it causes no THROTTLED transition and returns
the counter to zero; a rate sequence exceeding the threshold for D
consecutive ticks transitions exactly on tick D, emitting the throttled
bandwidth ceiling.  Rates are carried as the byte deltas that induce
them (see `rate_guard_iff`). -/
theorem throttle_trigger_boundary (cfg : Config) (pe : Int)
    (hD : 1 ≤ cfg.TRIGGER_DURATION)
    (xs : List (Int × Int))
    (hlen : xs.length = cfg.TRIGGER_DURATION - 1)
    (hx : ∀ p ∈ xs, cfg.TRIGGER_SPEED * (1024 * 1024) < p.1 * 8)
    (y z : Int × Int)
    (hy : ¬ cfg.TRIGGER_SPEED * (1024 * 1024) < y.1 * 8)
    (hz : cfg.TRIGGER_SPEED * (1024 * 1024) < z.1 * 8) :
    ((∀ u ∈ throttleTrace cfg ⟨.NORMAL, 0, pe⟩ (xs ++ [y]), u.tag = .NORMAL) ∧
      runThrottle cfg ⟨.NORMAL, 0, pe⟩ (xs ++ [y]) = ⟨.NORMAL, 0, pe⟩) ∧
    ((∀ u ∈ throttleTrace cfg ⟨.NORMAL, 0, pe⟩ xs, u.tag = .NORMAL) ∧
      runThrottle cfg ⟨.NORMAL, 0, pe⟩ (xs ++ [z]) =
        ⟨.THROTTLED, cfg.TRIGGER_DURATION, z.2 + cfg.PUNISH_DURATION⟩ ∧
      (throttle_step cfg (runThrottle cfg ⟨.NORMAL, 0, pe⟩ xs) z.1 z.2).2 =
        [Event.setTcSpeed cfg.THROTTLE_SPEED_LIMIT]) := by
  have hmain := runThrottle_sustained_overage cfg pe xs 0 hx (by omega)
  have hrunxs : runThrottle cfg ⟨.NORMAL, 0, pe⟩ xs =
      ⟨.NORMAL, cfg.TRIGGER_DURATION - 1, pe⟩ := by
    rw [hmain.1]
    congr 1
    omega
  have hstepy : throttle_step cfg ⟨.NORMAL, cfg.TRIGGER_DURATION - 1, pe⟩ y.1 y.2 =
      (⟨.NORMAL, 0, pe⟩, []) :=
    throttle_step_normal_calm cfg _ pe y.1 y.2 hy
  have hstepz : throttle_step cfg ⟨.NORMAL, cfg.TRIGGER_DURATION - 1, pe⟩ z.1 z.2 =
      (⟨.THROTTLED, cfg.TRIGGER_DURATION - 1 + 1, z.2 + cfg.PUNISH_DURATION⟩,
        [Event.setTcSpeed cfg.THROTTLE_SPEED_LIMIT]) :=
    throttle_step_normal_trigger cfg _ pe z.1 z.2 hz (by omega)
  refine ⟨⟨?_, ?_⟩, hmain.2, ?_, ?_⟩
  · intro u hu
    rw [throttleTrace_append, hrunxs] at hu
    rcases List.mem_append.mp hu with h | h
    · exact hmain.2 u h
    · simp only [throttleTrace] at h
      rw [hstepy] at h
      rcases List.mem_cons.mp h with h2 | h2
      · rw [h2]
      · simp [throttleTrace] at h2
  · rw [runThrottle_append, hrunxs]
    show (throttle_step cfg ⟨.NORMAL, cfg.TRIGGER_DURATION - 1, pe⟩ y.1 y.2).1 = _
    rw [hstepy]
  · rw [runThrottle_append, hrunxs]
    show (throttle_step cfg ⟨.NORMAL, cfg.TRIGGER_DURATION - 1, pe⟩ z.1 z.2).1 = _
    rw [hstepz]
    simp only
    congr 1
    omega
  · rw [hrunxs, hstepz]

/-- Nine consecutive ticks at 120 Mbps (byte delta 15728641 over one
second exceeds the 100 Mbit trigger) followed by one more. -/
def c2xs : List (Int × Int) := List.replicate 9 (15728641, 0)

theorem throttle_trigger_boundary_witness :
    runThrottle defaultConfig ⟨.NORMAL, 0, 0⟩ (c2xs ++ [((15728641 : Int), (9 : Int))]) =
        ⟨.THROTTLED, 10, 909⟩ ∧
      runThrottle defaultConfig ⟨.NORMAL, 0, 0⟩ (c2xs ++ [((0 : Int), (9 : Int))]) =
        ⟨.NORMAL, 0, 0⟩ := by
  have h := throttle_trigger_boundary defaultConfig 0 (by decide) c2xs (by decide)
    (by decide) (0, 9) (15728641, 9) (by decide) (by decide)
  exact ⟨h.2.2.1, h.1.2⟩

/-- C3: once THROTTLED with deadline t + P, every tick strictly before
the deadline leaves the throttle state untouched regardless of the
observed rate, and the first tick at or past the deadline returns to
NORMAL, emits the normal bandwidth ceiling, and zeroes the overage
counter. -/
theorem throttled_window_fixed (cfg : Config) (hl : Nat) (t : Int)
    (xs : List (Int × Int))
    (hxs : ∀ p ∈ xs, p.2 < t + cfg.PUNISH_DURATION)
    (z : Int × Int) (hz : t + cfg.PUNISH_DURATION ≤ z.2) :
    (runThrottle cfg ⟨.THROTTLED, hl, t + cfg.PUNISH_DURATION⟩ xs =
        ⟨.THROTTLED, hl, t + cfg.PUNISH_DURATION⟩ ∧
      ∀ u ∈ throttleTrace cfg ⟨.THROTTLED, hl, t + cfg.PUNISH_DURATION⟩ xs,
        u = ⟨.THROTTLED, hl, t + cfg.PUNISH_DURATION⟩) ∧
    throttle_step cfg ⟨.THROTTLED, hl, t + cfg.PUNISH_DURATION⟩ z.1 z.2 =
      (⟨.NORMAL, 0, t + cfg.PUNISH_DURATION⟩,
        [Event.setTcSpeed cfg.MAX_SPEED_LIMIT]) :=
  ⟨runThrottle_punish_window cfg hl (t + cfg.PUNISH_DURATION) xs hxs,
    throttle_step_throttled_recover cfg hl (t + cfg.PUNISH_DURATION) z.1 z.2 hz⟩

theorem throttled_window_fixed_witness :
    runThrottle defaultConfig ⟨.THROTTLED, 5, 900⟩
        [((999999999 : Int), (100 : Int)), ((999999999 : Int), (899 : Int))] =
        ⟨.THROTTLED, 5, 900⟩ ∧
      throttle_step defaultConfig ⟨.THROTTLED, 5, 900⟩ 999999999 900 =
        (⟨.NORMAL, 0, 900⟩, [Event.setTcSpeed 150]) := by
  have h := throttled_window_fixed defaultConfig 5 0
    [((999999999 : Int), (100 : Int)), ((999999999 : Int), (899 : Int))]
    (by decide) (999999999, 900) (by decide)
  exact ⟨h.1.1, h.2⟩

/-- C4 counterexample: on the triggering tick (counter at 9, 120 Mbps
sample, default trigger duration 10) the code transitions to THROTTLED
with the consecutive-overage counter equal to 10, not reset to zero as
the claim states. -/
theorem throttle_transition_counter_not_reset :
    (throttle_step defaultConfig ⟨.NORMAL, 9, 0⟩ 15728641 5).1 =
        ⟨.THROTTLED, 10, 905⟩ ∧
      (10 : Nat) ≠ 0 := by decide

/-- C4 (amended): the NORMAL to THROTTLED transition applies the
throttled bandwidth ceiling and sets the deadline to now + punishment
duration, but leaves the overage counter at its incremented value (the
trigger duration); the counter is zeroed only later, on the
THROTTLED-to-NORMAL transition. -/
theorem throttle_transition_actions (cfg : Config) (hl : Nat) (pe d now : Int)
    (hd : cfg.TRIGGER_SPEED * (1024 * 1024) < d * 8)
    (hc : cfg.TRIGGER_DURATION ≤ hl + 1) :
    throttle_step cfg ⟨.NORMAL, hl, pe⟩ d now =
      (⟨.THROTTLED, hl + 1, now + cfg.PUNISH_DURATION⟩,
        [Event.setTcSpeed cfg.THROTTLE_SPEED_LIMIT]) ∧
    ∀ (hl2 : Nat) (d2 now2 : Int), now + cfg.PUNISH_DURATION ≤ now2 →
      (throttle_step cfg ⟨.THROTTLED, hl2, now + cfg.PUNISH_DURATION⟩ d2 now2).1
        = ⟨.NORMAL, 0, now + cfg.PUNISH_DURATION⟩ :=
  ⟨throttle_step_normal_trigger cfg hl pe d now hd hc,
    fun hl2 d2 now2 h2 => by
      rw [throttle_step_throttled_recover cfg hl2 (now + cfg.PUNISH_DURATION) d2 now2 h2]⟩

theorem throttle_transition_actions_witness :
    throttle_step defaultConfig ⟨.NORMAL, 9, 0⟩ 15728641 5 =
        (⟨.THROTTLED, 10, 905⟩, [Event.setTcSpeed 60]) ∧
      (throttle_step defaultConfig ⟨.THROTTLED, 10, 905⟩ 0 905).1 =
        ⟨.NORMAL, 0, 905⟩ := by
  have h := throttle_transition_actions defaultConfig 9 0 15728641 5
    (by decide) (by decide)
  exact ⟨h.1, h.2 10 0 905 (by decide)⟩

lemma check_daily_reset_throttle_fields (s : GuardianState) (today : Nat) :
    (check_daily_reset s today).current_state = s.current_state ∧
      (check_daily_reset s today).high_load_duration = s.high_load_duration ∧
      (check_daily_reset s today).punish_end_time = s.punish_end_time := by
  simp only [check_daily_reset]
  split <;> exact ⟨rfl, rfl, rfl⟩

/-- C5: a tick triggers a shutdown exactly when the absorbed daily byte
total strictly exceeds the gigabyte ceiling or the absorbed unique-IP
count strictly exceeds its maximum (equality triggers nothing), and the
shutdown produces exactly the log-entry, shutdown-command, exit-0 event
sequence. -/
theorem circuit_breaker_strict (cfg : Config) (s : GuardianState) (today : Nat)
    (traffic : Nat) (ips : List String) (now : Int) :
    (isStop (tick cfg s today traffic ips now) = true ↔
      (cfg.MAX_DAILY_TRAFFIC * (1024 * 1024 * 1024) < totalAfterAbsorb s today traffic ∨
        cfg.MAX_DAILY_UNIQUE_IPS < (ipsAfterAbsorb s today ips).card)) ∧
    (∀ s2 r ev, tick cfg s today traffic ips now = .stop s2 r ev →
      ev = [Event.shutdownLog r, Event.runShellCmd "shutdown -h now",
        Event.exitCode 0]) := by
  simp only [tick, totalAfterAbsorb, ipsAfterAbsorb, absorb_ips]
  split
  next h1 =>
    constructor
    · simp only [isStop, true_iff]
      exact Or.inl h1
    · intro s2 r ev h
      injection h with _ hr he
      rw [← he, ← hr]
      rfl
  next h1 =>
    split
    next h2 =>
      constructor
      · simp only [isStop, true_iff]
        exact Or.inr h2
      · intro s2 r ev h
        injection h with _ hr he
        rw [← he, ← hr]
        rfl
    next h2 =>
      constructor
      · constructor
        · intro hfalse
          exact absurd hfalse (by simp [isStop])
        · intro hor
          rcases hor with h | h
          · exact absurd h h1
          · exact absurd h h2
      · intro s2 r ev h
        exact TickResult.noConfusion h

/-- Default-configured state one byte over the 100 GB ceiling before the
tick even adds a delta. -/
def c5HotState : GuardianState :=
  { punish_end_time := 0
    high_load_duration := 3
    current_state := .NORMAL
    daily_ips := {"198.51.100.7"}
    daily_traffic_bytes := 100 * 1024 * 1024 * 1024 + 1
    last_check_date := 0
    last_traffic := 0 }

/-- Default-configured state exactly at the 100 GB ceiling. -/
def c5EdgeState : GuardianState :=
  { punish_end_time := 0
    high_load_duration := 3
    current_state := .NORMAL
    daily_ips := {"198.51.100.7"}
    daily_traffic_bytes := 100 * 1024 * 1024 * 1024
    last_check_date := 0
    last_traffic := 0 }

theorem circuit_breaker_strict_witness :
    isStop (tick defaultConfig c5HotState 0 0 [] 0) = true ∧
      isStop (tick defaultConfig c5EdgeState 0 0 [] 0) = false := by
  constructor
  · exact (circuit_breaker_strict defaultConfig c5HotState 0 0 [] 0).1.mpr
      (Or.inl (by decide))
  · have h := (circuit_breaker_strict defaultConfig c5EdgeState 0 0 [] 0).1
    cases he : isStop (tick defaultConfig c5EdgeState 0 0 [] 0) with
    | false => rfl
    | true =>
      rcases h.mp he with h2 | h2
      · exact absurd h2 (by decide)
      · exact absurd h2 (by decide)

/-- C6: the traffic breaker fires before the IP set absorbs this tick,
either breaker fires before the throttle state advances, and when both
thresholds are exceeded the reason is the traffic one. -/
theorem breaker_short_circuits (cfg : Config) (s : GuardianState) (today : Nat)
    (traffic : Nat) (ips : List String) (now : Int) :
    (∀ s2 ev, tick cfg s today traffic ips now = .stop s2 .dailyTraffic ev →
      s2.daily_ips = (check_daily_reset s today).daily_ips ∧
        s2.current_state = s.current_state ∧
        s2.high_load_duration = s.high_load_duration ∧
        s2.punish_end_time = s.punish_end_time) ∧
    (∀ s2 ev, tick cfg s today traffic ips now = .stop s2 .dailyIps ev →
      s2.current_state = s.current_state ∧
        s2.high_load_duration = s.high_load_duration ∧
        s2.punish_end_time = s.punish_end_time) ∧
    (∀ s2 r ev, tick cfg s today traffic ips now = .stop s2 r ev →
      cfg.MAX_DAILY_TRAFFIC * (1024 * 1024 * 1024) < totalAfterAbsorb s today traffic →
      r = .dailyTraffic) := by
  obtain ⟨hcs, hhl, hpe⟩ := check_daily_reset_throttle_fields s today
  simp only [tick, totalAfterAbsorb]
  split
  next h1 =>
    refine ⟨?_, ?_, ?_⟩
    · intro s2 ev h
      injection h with h1 _ _
      rw [← h1]
      exact ⟨rfl, hcs, hhl, hpe⟩
    · intro s2 ev h
      injection h with _ hr _
      exact Reason.noConfusion hr
    · intro s2 r ev h _
      injection h with _ hr _
      exact hr.symm
  next h1 =>
    split
    next h2 =>
      refine ⟨?_, ?_, ?_⟩
      · intro s2 ev h
        injection h with _ hr _
        exact Reason.noConfusion hr
      · intro s2 ev h
        injection h with h1 _ _
        rw [← h1]
        exact ⟨hcs, hhl, hpe⟩
      · intro s2 r ev h hgt
        exact absurd hgt h1
    next h2 =>
      refine ⟨?_, ?_, ?_⟩ <;> intro s2
      · intro ev h
        exact TickResult.noConfusion h
      · intro ev h
        exact TickResult.noConfusion h
      · intro r ev h
        exact TickResult.noConfusion h

theorem breaker_short_circuits_witness :
    (stateOf (tick defaultConfig c5HotState 0 0 ["203.0.113.9"] 0)).daily_ips =
        (check_daily_reset c5HotState 0).daily_ips ∧
      (stateOf (tick defaultConfig c5HotState 0 0 ["203.0.113.9"] 0)).current_state =
        c5HotState.current_state := by
  have hshape : tick defaultConfig c5HotState 0 0 ["203.0.113.9"] 0 =
      .stop (stateOf (tick defaultConfig c5HotState 0 0 ["203.0.113.9"] 0))
        .dailyTraffic
        (eventsOf (tick defaultConfig c5HotState 0 0 ["203.0.113.9"] 0)) := by
    decide
  have h := (breaker_short_circuits defaultConfig c5HotState 0 0 ["203.0.113.9"] 0).1
    (stateOf (tick defaultConfig c5HotState 0 0 ["203.0.113.9"] 0))
    (eventsOf (tick defaultConfig c5HotState 0 0 ["203.0.113.9"] 0)) hshape
  exact ⟨h.1, h.2.1⟩

/-- C7: on a date-rollover tick the stored date is updated, the daily
byte total reflects only this tick, and the daily IP set holds at most
the addresses of this tick; nothing from the previous day survives, whichever
branch the tick takes. -/
theorem rollover_clears_daily_record (cfg : Config) (s : GuardianState)
    (today : Nat) (traffic : Nat) (ips : List String) (now : Int)
    (h : today ≠ s.last_check_date) :
    (stateOf (tick cfg s today traffic ips now)).last_check_date = today ∧
      (stateOf (tick cfg s today traffic ips now)).daily_traffic_bytes =
        (traffic : Int) - (s.last_traffic : Int) ∧
      (stateOf (tick cfg s today traffic ips now)).daily_ips ⊆ ips.toFinset := by
  have hr : check_daily_reset s today =
      { s with daily_ips := ∅, daily_traffic_bytes := 0, last_check_date := today } := by
    simp [check_daily_reset, h]
  simp only [tick, hr]
  split
  next =>
    refine ⟨rfl, ?_, ?_⟩
    · simp only [stateOf]
      ring
    · simp only [stateOf]
      exact Finset.empty_subset _
  next =>
    split
    next =>
      refine ⟨rfl, ?_, ?_⟩
      · simp only [stateOf]
        ring
      · simp only [stateOf]
        rw [absorb_ips_eq]
        simp
    next =>
      refine ⟨rfl, ?_, ?_⟩
      · simp only [stateOf]
        ring
      · simp only [stateOf]
        rw [absorb_ips_eq]
        simp

/-- Record from yesterday carrying an IP and a byte total. -/
def c7StaleState : GuardianState :=
  { punish_end_time := 0
    high_load_duration := 2
    current_state := .NORMAL
    daily_ips := {"192.0.2.1"}
    daily_traffic_bytes := 5000
    last_check_date := 0
    last_traffic := 100 }

theorem rollover_clears_daily_record_witness :
    (stateOf (tick defaultConfig c7StaleState 1 150 ["192.0.2.9"] 0)).last_check_date
        = 1 ∧
      (stateOf (tick defaultConfig c7StaleState 1 150 ["192.0.2.9"] 0)).daily_traffic_bytes
        = (150 : Int) - (100 : Int) ∧
      (stateOf (tick defaultConfig c7StaleState 1 150 ["192.0.2.9"] 0)).daily_ips ⊆
        (["192.0.2.9"] : List String).toFinset :=
  rollover_clears_daily_record defaultConfig c7StaleState 1 150 ["192.0.2.9"] 0
    (by decide)

/-- C8: a failing counter read yields the zero sample, a failing
connection enumeration yields the empty list, and the loop body treats
the pair exactly as an ordinary (degenerate) observation rather than
halting. -/
theorem sampler_failures_absorbed (cfg : Config) (s : GuardianState)
    (today : Nat) (now : Int) :
    get_current_traffic none = 0 ∧
      get_active_ips none = [] ∧
      tick cfg s today (get_current_traffic none) (get_active_ips none) now =
        tick cfg s today 0 [] now :=
  ⟨rfl, rfl, rfl⟩

lemma foldl_absorb_ips (s : Finset String) (lists : List (List String)) :
    lists.foldl absorb_ips s = s ∪ lists.flatten.toFinset := by
  induction lists generalizing s with
  | nil => simp
  | cons l t ih =>
    show List.foldl absorb_ips (absorb_ips s l) t = _
    rw [ih, absorb_ips_eq]
    simp [Finset.union_assoc, List.toFinset_append]

lemma dup_flatten_toFinset (lists : List (List String)) :
    (lists.map (fun l => l ++ l)).flatten.toFinset = lists.flatten.toFinset := by
  induction lists with
  | nil => rfl
  | cons l t ih =>
    simp only [List.map_cons, List.flatten_cons, List.toFinset_append, ih]
    rw [Finset.union_self]

/-- C9: the daily IP set accumulated by set insertion over any sequence
of address lists is the set union of all addresses observed, so the
unique count is the cardinality of that union; feeding every address
twice within its tick changes nothing. -/
theorem unique_count_is_union_card (lists : List (List String)) :
    lists.foldl absorb_ips ∅ = lists.flatten.toFinset ∧
      (lists.foldl absorb_ips ∅).card = lists.flatten.toFinset.card ∧
      (lists.map (fun l => l ++ l)).foldl absorb_ips ∅ =
        lists.foldl absorb_ips ∅ := by
  have h := foldl_absorb_ips ∅ lists
  rw [Finset.empty_union] at h
  have h2 := foldl_absorb_ips ∅ (lists.map (fun l => l ++ l))
  rw [Finset.empty_union] at h2
  refine ⟨h, by rw [h], ?_⟩
  rw [h, h2, dup_flatten_toFinset]

/-- Event classifiers for the shutdown sequence. -/
def isLogEvent : Event → Bool
  | .shutdownLog _ => true
  | _ => false

def isHaltCmdEvent : Event → Bool
  | .runShellCmd c => c = "shutdown -h now"
  | _ => false

/-- C10: a fired breaker appends exactly one reason line, invokes the
host shutdown command exactly once, and exits with status 0, while the
missing-privilege startup path exits with status 1. -/
theorem shutdown_effects_and_exit_codes (r : Reason) (euid : Nat) (h : euid ≠ 0) :
    ((shutdown_server r).filter (fun e => isLogEvent e)).length = 1 ∧
      ((shutdown_server r).filter (fun e => isHaltCmdEvent e)).length = 1 ∧
      (shutdown_server r).getLast? = some (.exitCode 0) ∧
      rootCheck euid = some 1 ∧
      rootCheck 0 = none ∧
      (1 : Nat) ≠ 0 := by
  refine ⟨rfl, rfl, rfl, ?_, rfl, by decide⟩
  unfold rootCheck
  rw [if_pos h]

theorem shutdown_effects_and_exit_codes_witness :
    ((shutdown_server .dailyTraffic).filter (fun e => isLogEvent e)).length = 1 ∧
      ((shutdown_server .dailyTraffic).filter (fun e => isHaltCmdEvent e)).length = 1 ∧
      (shutdown_server .dailyTraffic).getLast? = some (.exitCode 0) ∧
      rootCheck 1000 = some 1 ∧
      rootCheck 0 = none ∧
      (1 : Nat) ≠ 0 :=
  shutdown_effects_and_exit_codes .dailyTraffic 1000 (by decide)

example : get_current_traffic (some (3, 4)) = 7 := by decide
example : get_current_traffic none = 0 := by decide
example : get_active_ips none = [] := by decide
example :
    (throttle_step defaultConfig ⟨.NORMAL, 9, 0⟩ 15728641 5).1 =
      ⟨.THROTTLED, 10, 905⟩ := by decide
example :
    (throttle_step defaultConfig ⟨.NORMAL, 3, 0⟩ 15728641 5).1 =
      ⟨.NORMAL, 4, 0⟩ := by decide
example :
    (throttle_step defaultConfig ⟨.THROTTLED, 7, 100⟩ 500 40).1 =
      ⟨.THROTTLED, 7, 100⟩ := by decide
example :
    throttle_step defaultConfig ⟨.THROTTLED, 7, 100⟩ 500 100 =
      (⟨.NORMAL, 0, 100⟩, [Event.setTcSpeed 150]) := by decide
example :
    (stateOf (tick defaultConfig (initialState 0 100) 0 0 [] 0)).daily_traffic_bytes
      = -100 := by decide
example :
    isStop (tick defaultConfig (initialState 0 0) 0 (200 * 1024 * 1024 * 1024) [] 0)
      = true := by decide

end Guardian
